import Mathlib

/-!
# Verification of the `terminal` package of tui-goggles

Shallow embedding of the terminal session engine: the Query Interceptor
(`handleTerminalQueries` and its `tryHandle*` helpers), the session state
(`Terminal`), creation (`New`), `Resize`, `Screenshot`/`ScreenshotWithCursor`,
and the Stability Synchronizer (`WaitForStable`, `WaitForText`).

Bytes are modelled as `Nat` (Go `byte` values), buffers as `List Nat`.
Go `int` dimensions are modelled as `Int`.  The PTY, the child process and
the background read loop are external effects: query responses written to the
PTY are collected as a list of byte lists, OS-level calls (`pty.StartWithSize`,
`pty.Setsize`) are modelled by a boolean success parameter plus a boolean
result recording whether the call was reached.  Time in the polling loops is
discrete milliseconds; one loop iteration advances the clock by the 50 ms
sleep of the source.
-/

namespace TuiGoggles

/-- Source `maxTerminalDimension = math.MaxUint16` from the source. -/
def maxTerminalDimension : Int := 65535

/-- Modelled from the spec: the external Virtual Screen Model (the vt10x
dependency, §6 of the spec).  It keeps a deterministic textual rendering of
the grid plus cursor row/column/visibility, and `hasPtyWriter` records
whether it was constructed with the PTY as its writer (`vt10x.WithWriter`),
which is what equips it to answer device-status-report queries itself. -/
structure VT where
  text : String
  cursorRow : Nat
  cursorCol : Nat
  cursorVisible : Bool
  hasPtyWriter : Bool
  deriving Repr, DecidableEq

/-- Modelled from the spec: the textual rendering of a freshly constructed
grid of the given size is a blank grid — `rows` lines of `cols` spaces. -/
def blankGrid (cols rows : Int) : String :=
  String.join (List.replicate rows.toNat (String.mk (List.replicate cols.toNat ' ') ++ "\n"))

/-- Modelled from the spec: `vt10x.New(WithSize(cols, rows), ...)` — a fresh
model with all prior state replaced, rendering a blank grid.  The engine
passes `vt10x.WithWriter(ptmx)` exactly when `withPtyWriter` is true. -/
def vtNew (cols rows : Int) (withPtyWriter : Bool) : VT :=
  { text := blankGrid cols rows
    cursorRow := 0
    cursorCol := 0
    cursorVisible := true
    hasPtyWriter := withPtyWriter }

/-- The session state of `Terminal` (the fields the claims concern:
the installed Virtual Screen Model and the recorded size). -/
structure Terminal where
  vt : VT
  rows : Int
  cols : Int
  deriving Repr, DecidableEq

/-! ## Synthetic responses (byte-for-byte from the source) -/

/-- Decimal bytes of an integer, as produced by Go `fmt.Sprintf("%d", n)`. -/
def decBytes (n : Int) : List Nat :=
  n.repr.data.map Char.toNat

/-- Source `respondToDA1`: the bytes of `"\x1b[?62;4c"`. -/
def respondToDA1 : List Nat := [27, 91, 63, 54, 50, 59, 52, 99]

/-- Source `respondToDA2`: the bytes of `"\x1b[>1;0;0c"`. -/
def respondToDA2 : List Nat := [27, 91, 62, 49, 59, 48, 59, 48, 99]

/-- Source `respondToWindowSizePixels`: `fmt.Sprintf("\x1b[4;%d;%dt", rows*16, cols*8)`. -/
def respondToWindowSizePixels (t : Terminal) : List Nat :=
  [27, 91, 52, 59] ++ decBytes (t.rows * 16) ++ [59] ++ decBytes (t.cols * 8) ++ [116]

/-- Source `respondToTextAreaSize`: `fmt.Sprintf("\x1b[8;%d;%dt", rows, cols)`. -/
def respondToTextAreaSize (t : Terminal) : List Nat :=
  [27, 91, 56, 59] ++ decBytes t.rows ++ [59] ++ decBytes t.cols ++ [116]

/-- Source `respondToScreenSize`: `fmt.Sprintf("\x1b[9;%d;%dt", rows, cols)`. -/
def respondToScreenSize (t : Terminal) : List Nat :=
  [27, 91, 57, 59] ++ decBytes t.rows ++ [59] ++ decBytes t.cols ++ [116]

/-- Source `respondToBackgroundColorQuery`: the bytes of `"\x1b]11;rgb:0000/0000/0000\x1b\\"`. -/
def respondToBackgroundColorQuery : List Nat :=
  [27, 93, 49, 49, 59, 114, 103, 98, 58,
   48, 48, 48, 48, 47, 48, 48, 48, 48, 47, 48, 48, 48, 48, 27, 92]

/-- Source `respondToForegroundColorQuery`: the bytes of `"\x1b]10;rgb:ffff/ffff/ffff\x1b\\"`. -/
def respondToForegroundColorQuery : List Nat :=
  [27, 93, 49, 48, 59, 114, 103, 98, 58,
   102, 102, 102, 102, 47, 102, 102, 102, 102, 47, 102, 102, 102, 102, 27, 92]

/-! ## Query Interceptor

The Go scanner indexes `data[i..]` only relative to the scan position `i`,
so each `tryHandle*` function is embedded as a function of the suffix of the
buffer starting at the scan position.  A returned `some (skip, resp)` is the
Go "skip > 0" case: `skip` bytes are elided and `resp` is written to the PTY.
-/

/-- Source `findOSCEnd(data, offset)` on the suffix starting at `offset`: number of
bytes up to and including the OSC terminator (BEL, or the pair `ESC \`),
`none` when no terminator occurs in the available buffer (Go returns -1). -/
def findOSCEnd : List Nat → Option Nat
  | [] => none
  | b :: rest =>
    if b = 7 then some 1
    else if b = 27 ∧ rest.head? = some 92 then some 2
    else (findOSCEnd rest).map (· + 1)

/-- Source `tryHandleXTWINOPS`: `ESC [ 1 4 t`, `ESC [ 1 8 t`, `ESC [ 1 9 t`
(the guard `i+4 >= len(data)` is the five-byte pattern match). -/
def tryHandleXTWINOPS (t : Terminal) (d : List Nat) : Option (Nat × List Nat) :=
  match d with
  | _ :: _ :: b2 :: b3 :: b4 :: _ =>
    if b2 ≠ 49 then none
    else if b3 = 52 ∧ b4 = 116 then some (5, respondToWindowSizePixels t)
    else if b3 = 56 ∧ b4 = 116 then some (5, respondToTextAreaSize t)
    else if b3 = 57 ∧ b4 = 116 then some (5, respondToScreenSize t)
    else none
  | _ => none

/-- Source `tryHandleCSIQuery`: DA1 (`ESC [ c`, `ESC [ 0 c`), DA2 (`ESC [ > c`,
`ESC [ > 0 c`), then XTWINOPS.  The guard `i+2 >= len(data) || data[i+1] != '['`
is the three-byte pattern match plus the `b1 = 91` test; the lookahead guards
`i+3 < len(data)`, `i+4 < len(data)` are the `head?` tests on the tail. -/
def tryHandleCSIQuery (t : Terminal) (d : List Nat) : Option (Nat × List Nat) :=
  match d with
  | _ :: b1 :: b2 :: rest =>
    if b1 ≠ 91 then none
    else if b2 = 99 then some (3, respondToDA1)
    else if b2 = 48 ∧ rest.head? = some 99 then some (4, respondToDA1)
    else if b2 = 62 ∧ rest.head? = some 99 then some (4, respondToDA2)
    else if b2 = 62 ∧ rest.head? = some 48 ∧ rest.tail.head? = some 99 then
      some (5, respondToDA2)
    else tryHandleXTWINOPS t d
  | _ => none

/-- Source `tryHandleOSCQuery`: `ESC ] 1 1 ;` (background) and `ESC ] 1 0 ;`
(foreground) color queries; matched only when `findOSCEnd` locates a
terminator in the remainder of the buffer. -/
def tryHandleOSCQuery (t : Terminal) (d : List Nat) : Option (Nat × List Nat) :=
  match d with
  | _ :: b1 :: b2 :: b3 :: b4 :: rest =>
    if b1 ≠ 93 then none
    else if b2 = 49 ∧ b3 = 49 ∧ b4 = 59 then
      match findOSCEnd rest with
      | some endLen => some (5 + endLen, respondToBackgroundColorQuery)
      | none => none
    else if b2 = 49 ∧ b3 = 48 ∧ b4 = 59 then
      match findOSCEnd rest with
      | some endLen => some (5 + endLen, respondToForegroundColorQuery)
      | none => none
    else none
  | _ => none

/-- Source `tryHandleQuery`: CSI first, then OSC. -/
def tryHandleQuery (t : Terminal) (d : List Nat) : Option (Nat × List Nat) :=
  match tryHandleCSIQuery t d with
  | some r => some r
  | none => tryHandleOSCQuery t d

/-- The scan loop of `handleTerminalQueries`, structurally recursive on a
fuel equal to the buffer length at the top level (each iteration consumes at
least one byte, so the fuel never runs out on the reachable calls).
Returns (bytes passed through to the Virtual Screen Model,
responses written to the PTY, in order). -/
def handleTQAux (t : Terminal) : Nat → List Nat → List Nat × List (List Nat)
  | 0, d => (d, [])
  | _ + 1, [] => ([], [])
  | fuel + 1, b :: rest =>
    if b = 27 ∧ rest ≠ [] then
      match tryHandleQuery t (b :: rest) with
      | some (skip, resp) =>
        let r := handleTQAux t fuel (List.drop skip (b :: rest))
        (r.1, resp :: r.2)
      | none =>
        let r := handleTQAux t fuel rest
        (b :: r.1, r.2)
    else
      let r := handleTQAux t fuel rest
      (b :: r.1, r.2)

/-- Source `handleTerminalQueries(data)`: scan the buffer left to right, elide
recognized queries and collect the synthetic responses written to the PTY. -/
def handleTerminalQueries (t : Terminal) (data : List Nat) : List Nat × List (List Nat) :=
  handleTQAux t data.length data

/-! ## Session operations -/

/-- Source `New(command, args, opts)`.  `spawnOk` models whether
`pty.StartWithSize` (the only OS-level sizing call of creation) succeeds.
The returned boolean records whether that OS call was reached.
The zero-default substitution happens before validation, as in the source. -/
def New (spawnOk : Bool) (optsRows optsCols : Int) : Except String Terminal × Bool :=
  let rows := if optsRows = 0 then 24 else optsRows
  let cols := if optsCols = 0 then 80 else optsCols
  if rows < 0 ∨ maxTerminalDimension < rows then
    (.error "rows must be between 0 and 65535", false)
  else if cols < 0 ∨ maxTerminalDimension < cols then
    (.error "cols must be between 0 and 65535", false)
  else if spawnOk then
    (.ok { vt := vtNew cols rows true, rows := rows, cols := cols }, true)
  else
    (.error "failed to start PTY", true)

/-- Source `Resize(cols, rows)`.  `setsizeOk` models whether `pty.Setsize`
succeeds.  Returns (error if any, the session state afterwards, whether the
OS-level sizing call was reached).  On success the model is replaced by
`vt10x.New(vt10x.WithSize(cols, rows))` — without `WithWriter`. -/
def Resize (setsizeOk : Bool) (cols rows : Int) (t : Terminal) :
    Option String × Terminal × Bool :=
  if rows < 0 ∨ maxTerminalDimension < rows then
    (some "rows must be between 0 and 65535", t, false)
  else if cols < 0 ∨ maxTerminalDimension < cols then
    (some "cols must be between 0 and 65535", t, false)
  else if setsizeOk then
    (none, { t with rows := rows, cols := cols, vt := vtNew cols rows false }, true)
  else
    (some "failed to set PTY size", t, true)

/-- Source `Screenshot()`: under the session lock, `t.vt.String()`. -/
def Screenshot (t : Terminal) : String :=
  t.vt.text

/-- Source `ScreenshotWithCursor()`: the source returns the plain screen
(`t.vt.String()`) — the cursor is not marked. -/
def ScreenshotWithCursor (t : Terminal) : String :=
  t.vt.text

/-! ## Stability Synchronizer

The polling loops sleep 50 ms per iteration; poll `k` happens at time
`50 * k` ms after entry, and the loop guard is `time.Now().Before(deadline)`
with `deadline = entry + timeout`.  The snapshots the session would return
are modelled by a stream `screens : Nat → String` (`screens k` is what
`t.Screenshot()` returns at poll `k`).  The loops are embedded with a fuel
argument; the top level passes `fuel = timeout`, which suffices because the
loop runs at most `⌈timeout / 50⌉ ≤ timeout` iterations, and a fuel-exhausted
return coincides with the loop-exit (timeout) result. -/

/-- The loop of `WaitForStable`: `k` is the poll index, `lastScreen` and
`stableSince` (`none` is Go's zero `time.Time`) the tracked state. -/
def waitForStableAux (screens : Nat → String) (stableDuration deadline : Nat) :
    Nat → Nat → String → Option Nat → Bool
  | 0, _, _, _ => false
  | fuel + 1, k, lastScreen, stableSince =>
    if 50 * k < deadline then
      let screen := screens k
      if screen ≠ lastScreen then
        waitForStableAux screens stableDuration deadline fuel (k + 1) screen (some (50 * k))
      else
        match stableSince with
        | some s =>
          if stableDuration ≤ 50 * k - s then true
          else waitForStableAux screens stableDuration deadline fuel (k + 1) lastScreen (some s)
        | none => waitForStableAux screens stableDuration deadline fuel (k + 1) lastScreen none
    else false

/-- Source `WaitForStable(timeout, stableDuration)`: `true` is success (`nil`),
`false` the timeout error.  `lastScreen` starts as the empty string and
`stableSince` as the zero time, as in the source. -/
def WaitForStable (timeout stableDuration : Nat) (screens : Nat → String) : Bool :=
  waitForStableAux screens stableDuration timeout timeout 0 "" none

/-- Embedding of Go `strings.Contains(s, sub)` on char lists. -/
def hasSubstring (sub : List Char) : List Char → Bool
  | [] => sub.isPrefixOf []
  | c :: rest => sub.isPrefixOf (c :: rest) || hasSubstring sub rest

/-- Go `strings.Contains(s, sub)`. -/
def stringsContains (s sub : String) : Bool :=
  hasSubstring sub.data s.data

/-- Source `containsText(screen, text)` from the source:
`text != "" && screen != "" && strings.Contains(screen, text)`. -/
def containsText (screen text : String) : Bool :=
  !(text == "") && !(screen == "") && stringsContains screen text

/-- The loop of `WaitForText`. -/
def waitForTextAux (screens : Nat → String) (text : String) (deadline : Nat) :
    Nat → Nat → Bool
  | 0, _ => false
  | fuel + 1, k =>
    if 50 * k < deadline then
      if containsText (screens k) text then true
      else waitForTextAux screens text deadline fuel (k + 1)
    else false

/-- Source `WaitForText(text, timeout)`: `true` is success, `false` the timeout error. -/
def WaitForText (text : String) (timeout : Nat) (screens : Nat → String) : Bool :=
  waitForTextAux screens text timeout timeout 0

/-- The success condition of claim C1 as stated: some window of polls
`j ≤ i ≤ m`, all before the deadline, shows the same snapshot text
continuously for a dwell time of at least `stableDuration`. -/
def StableWindow (stableDuration timeout : Nat) (screens : Nat → String) : Prop :=
  ∃ j m, j < m ∧ stableDuration ≤ 50 * (m - j) ∧ 50 * m < timeout ∧
    ∀ i, j ≤ i → i ≤ m → screens i = screens j

/-! ## Lemmas about the Query Interceptor -/

theorem tryHandleXTWINOPS_skip_pos {t : Terminal} {d : List Nat} {skip : Nat}
    {resp : List Nat} (h : tryHandleXTWINOPS t d = some (skip, resp)) : 1 ≤ skip := by
  unfold tryHandleXTWINOPS at h
  repeat' split at h
  all_goals simp_all
  all_goals omega

theorem tryHandleCSIQuery_skip_pos {t : Terminal} {d : List Nat} {skip : Nat}
    {resp : List Nat} (h : tryHandleCSIQuery t d = some (skip, resp)) : 1 ≤ skip := by
  unfold tryHandleCSIQuery at h
  repeat' split at h
  any_goals exact tryHandleXTWINOPS_skip_pos h
  all_goals simp_all
  all_goals omega

theorem tryHandleOSCQuery_skip_pos {t : Terminal} {d : List Nat} {skip : Nat}
    {resp : List Nat} (h : tryHandleOSCQuery t d = some (skip, resp)) : 1 ≤ skip := by
  unfold tryHandleOSCQuery at h
  repeat' split at h
  all_goals simp_all
  all_goals omega

theorem tryHandleQuery_skip_pos {t : Terminal} {d : List Nat} {skip : Nat}
    {resp : List Nat} (h : tryHandleQuery t d = some (skip, resp)) : 1 ≤ skip := by
  unfold tryHandleQuery at h
  split at h
  · next heq =>
    cases h
    exact tryHandleCSIQuery_skip_pos heq
  · exact tryHandleOSCQuery_skip_pos h

/-- The fuel of the scan loop is irrelevant as long as it is at least the
buffer length. -/
theorem handleTQAux_fuel (t : Terminal) :
    ∀ (f : Nat) (d : List Nat), d.length ≤ f →
      handleTQAux t f d = handleTQAux t d.length d := by
  intro f
  induction f using Nat.strong_induction_on with
  | _ f ih =>
    intro d hd
    match f, d with
    | f, [] => cases f <;> rfl
    | 0, b :: rest => simp at hd
    | f + 1, b :: rest =>
      have hrest : rest.length ≤ f := by
        simpa using Nat.lt_succ_iff.mp (Nat.lt_of_lt_of_le (by simp) hd)
      simp only [List.length_cons, handleTQAux]
      by_cases hb : b = 27 ∧ rest ≠ []
      · simp only [if_pos hb]
        cases hq : tryHandleQuery t (b :: rest) with
        | none =>
          rw [ih f (Nat.lt_succ_self f) rest hrest,
            ih rest.length (Nat.lt_succ_of_le hrest) rest (le_refl _)]
        | some v =>
          obtain ⟨skip, resp⟩ := v
          have hskip : 1 ≤ skip := tryHandleQuery_skip_pos hq
          have hX : (List.drop skip (b :: rest)).length ≤ rest.length := by
            simp only [List.length_drop, List.length_cons]
            omega
          dsimp only
          rw [ih f (Nat.lt_succ_self f) _ (le_trans hX hrest),
            ih rest.length (Nat.lt_succ_of_le hrest) _ hX]
      · simp only [if_neg hb]
        rw [ih f (Nat.lt_succ_self f) rest hrest,
          ih rest.length (Nat.lt_succ_of_le hrest) rest (le_refl _)]

theorem handleTQ_nil (t : Terminal) : handleTerminalQueries t [] = ([], []) := rfl

/-- A byte that is not the escape introducer (or an escape as the very last
byte) passes through unchanged. -/
theorem handleTQ_cons_pass (t : Terminal) {b : Nat} {rest : List Nat}
    (h : ¬(b = 27 ∧ rest ≠ [])) :
    handleTerminalQueries t (b :: rest) =
      (b :: (handleTerminalQueries t rest).1, (handleTerminalQueries t rest).2) := by
  simp only [handleTerminalQueries, List.length_cons, handleTQAux, if_neg h]

/-- A recognized query is elided and its response written; the scan resumes
after the matched span. -/
theorem handleTQ_cons_match (t : Terminal) {b : Nat} {rest : List Nat}
    {skip : Nat} {resp : List Nat} (hb : b = 27) (hne : rest ≠ [])
    (hq : tryHandleQuery t (b :: rest) = some (skip, resp)) :
    handleTerminalQueries t (b :: rest) =
      ((handleTerminalQueries t (List.drop skip (b :: rest))).1,
        resp :: (handleTerminalQueries t (List.drop skip (b :: rest))).2) := by
  have hskip : 1 ≤ skip := tryHandleQuery_skip_pos hq
  have hX : (List.drop skip (b :: rest)).length ≤ rest.length := by
    simp only [List.length_drop, List.length_cons]
    omega
  simp only [handleTerminalQueries, List.length_cons, handleTQAux, if_pos (And.intro hb hne), hq]
  rw [handleTQAux_fuel t rest.length _ hX]

/-- An escape byte at which no recognized pattern starts passes through. -/
theorem handleTQ_cons_esc_none (t : Terminal) {rest : List Nat} (hne : rest ≠ [])
    (hq : tryHandleQuery t (27 :: rest) = none) :
    handleTerminalQueries t (27 :: rest) =
      (27 :: (handleTerminalQueries t rest).1, (handleTerminalQueries t rest).2) := by
  simp only [handleTerminalQueries, List.length_cons, handleTQAux, hq]
  split <;> rfl

/-- Escape-free bytes pass through unchanged ahead of the rest of the scan
(the identity property of §8 on the clean prefix). -/
theorem handleTQ_clean_append (t : Terminal) {pre : List Nat} (rest : List Nat)
    (h : 27 ∉ pre) :
    handleTerminalQueries t (pre ++ rest) =
      (pre ++ (handleTerminalQueries t rest).1, (handleTerminalQueries t rest).2) := by
  induction pre with
  | nil => simp
  | cons b pre' ih =>
    have hb : b ≠ 27 := fun hb => h (hb ▸ List.mem_cons_self b pre')
    have h' : 27 ∉ pre' := fun hm => h (List.mem_cons_of_mem b hm)
    rw [List.cons_append, handleTQ_cons_pass t (fun hc => hb hc.1), ih h']
    simp

/-! ## No OSC terminator: the color-query patterns cannot match -/

theorem findOSCEnd_none_tail {b : Nat} {rest : List Nat}
    (h : findOSCEnd (b :: rest) = none) : findOSCEnd rest = none := by
  unfold findOSCEnd at h
  repeat' split at h
  all_goals simp_all

theorem findOSCEnd_none_drop (n : Nat) :
    ∀ l : List Nat, findOSCEnd l = none → findOSCEnd (List.drop n l) = none := by
  induction n with
  | zero => intro l h; simpa using h
  | succ m ih =>
    intro l h
    match l with
    | [] => simpa using h
    | b :: rest =>
      rw [List.drop_succ_cons]
      exact ih rest (findOSCEnd_none_tail h)

theorem respondToWindowSizePixels_ne_color (t : Terminal) :
    respondToWindowSizePixels t ≠ respondToForegroundColorQuery ∧
    respondToWindowSizePixels t ≠ respondToBackgroundColorQuery := by
  constructor <;> intro h <;>
    simp [respondToWindowSizePixels, respondToForegroundColorQuery,
      respondToBackgroundColorQuery] at h

theorem respondToTextAreaSize_ne_color (t : Terminal) :
    respondToTextAreaSize t ≠ respondToForegroundColorQuery ∧
    respondToTextAreaSize t ≠ respondToBackgroundColorQuery := by
  constructor <;> intro h <;>
    simp [respondToTextAreaSize, respondToForegroundColorQuery,
      respondToBackgroundColorQuery] at h

theorem respondToScreenSize_ne_color (t : Terminal) :
    respondToScreenSize t ≠ respondToForegroundColorQuery ∧
    respondToScreenSize t ≠ respondToBackgroundColorQuery := by
  constructor <;> intro h <;>
    simp [respondToScreenSize, respondToForegroundColorQuery,
      respondToBackgroundColorQuery] at h

theorem tryHandleXTWINOPS_resp_not_color {t : Terminal} {d : List Nat} {skip : Nat}
    {resp : List Nat} (hq : tryHandleXTWINOPS t d = some (skip, resp)) :
    resp ≠ respondToForegroundColorQuery ∧ resp ≠ respondToBackgroundColorQuery := by
  unfold tryHandleXTWINOPS at hq
  repeat' split at hq
  all_goals simp only [Option.some.injEq, Prod.mk.injEq, reduceCtorEq] at hq
  all_goals obtain ⟨-, rfl⟩ := hq
  exacts [respondToWindowSizePixels_ne_color t, respondToTextAreaSize_ne_color t,
    respondToScreenSize_ne_color t]

theorem tryHandleCSIQuery_resp_not_color {t : Terminal} {d : List Nat} {skip : Nat}
    {resp : List Nat} (hq : tryHandleCSIQuery t d = some (skip, resp)) :
    resp ≠ respondToForegroundColorQuery ∧ resp ≠ respondToBackgroundColorQuery := by
  unfold tryHandleCSIQuery at hq
  repeat' split at hq
  any_goals exact tryHandleXTWINOPS_resp_not_color hq
  all_goals simp only [Option.some.injEq, Prod.mk.injEq, reduceCtorEq] at hq
  all_goals obtain ⟨-, rfl⟩ := hq
  all_goals constructor <;> decide

/-- With no OSC terminator after the five-byte OSC header, the OSC color
patterns are treated as a non-match. -/
theorem tryHandleOSCQuery_none_of_noTerm {t : Terminal} {d : List Nat}
    (hno : findOSCEnd (List.drop 5 d) = none) : tryHandleOSCQuery t d = none := by
  unfold tryHandleOSCQuery
  repeat' split
  all_goals simp_all

/-- A query matched in a buffer with no OSC terminator past its header is a
CSI query, so its response is not a color response. -/
theorem tryHandleQuery_resp_not_color {t : Terminal} {d : List Nat} {skip : Nat}
    {resp : List Nat} (hq : tryHandleQuery t d = some (skip, resp))
    (hno : findOSCEnd (List.drop 5 d) = none) :
    resp ≠ respondToForegroundColorQuery ∧ resp ≠ respondToBackgroundColorQuery := by
  unfold tryHandleQuery at hq
  split at hq
  · next heq =>
    cases hq
    exact tryHandleCSIQuery_resp_not_color heq
  · rw [tryHandleOSCQuery_none_of_noTerm hno] at hq
    simp at hq

/-- When the whole buffer holds no OSC terminator, the scan writes no color
response at all. -/
theorem handleTQAux_no_color_writes (t : Terminal) :
    ∀ (f : Nat) (d : List Nat), findOSCEnd d = none →
      respondToForegroundColorQuery ∉ (handleTQAux t f d).2 ∧
      respondToBackgroundColorQuery ∉ (handleTQAux t f d).2 := by
  intro f
  induction f with
  | zero => intro d _; simp [handleTQAux]
  | succ f ih =>
    intro d h
    match d with
    | [] => simp [handleTQAux]
    | b :: rest =>
      simp only [handleTQAux]
      by_cases hb : b = 27 ∧ rest ≠ []
      · simp only [if_pos hb]
        cases hq : tryHandleQuery t (b :: rest) with
        | none =>
          dsimp only
          exact ih rest (findOSCEnd_none_tail h)
        | some v =>
          obtain ⟨skip, resp⟩ := v
          dsimp only
          have hd5 : findOSCEnd (List.drop 5 (b :: rest)) = none :=
            findOSCEnd_none_drop 5 _ h
          have hresp := tryHandleQuery_resp_not_color hq hd5
          have hrec := ih (List.drop skip (b :: rest)) (findOSCEnd_none_drop skip _ h)
          simp only [List.mem_cons, not_or]
          exact ⟨⟨fun hh => hresp.1 hh.symm, hrec.1⟩, ⟨fun hh => hresp.2 hh.symm, hrec.2⟩⟩
      · simp only [if_neg hb]
        cases rest with
        | nil => exact ih [] rfl
        | cons c cs => exact ih _ (findOSCEnd_none_tail h)

theorem handleTQ_no_color_writes (t : Terminal) (d : List Nat)
    (h : findOSCEnd d = none) :
    respondToForegroundColorQuery ∉ (handleTerminalQueries t d).2 ∧
    respondToBackgroundColorQuery ∉ (handleTerminalQueries t d).2 :=
  handleTQAux_no_color_writes t d.length d h

/-! ## Lemmas about `WaitForStable` -/

/-- On a snapshot stream that is the empty string at every poll, the loop
never sets `stableSince` (the initial `lastScreen` is also the empty string)
and runs to the deadline. -/
theorem waitForStableAux_const_empty (d T : Nat) :
    ∀ (f k : Nat), waitForStableAux (fun _ => "") d T f k "" none = false := by
  intro f
  induction f with
  | zero => intro k; rfl
  | succ f ih =>
    intro k
    simp only [waitForStableAux]
    split
    · simpa using ih (k + 1)
    · rfl

/-- Soundness of the loop: a success implies a window of polls, before the
deadline, showing the same text continuously for a dwell of at least `d`.
The hypothesis is the loop invariant tying `stableSince` to the history. -/
theorem waitForStableAux_sound (screens : Nat → String) (d T : Nat) :
    ∀ (f k : Nat) (ls : String) (ss : Option Nat),
      (∀ s, ss = some s →
        ∃ j, s = 50 * j ∧ j < k ∧ ∀ i, j ≤ i → i < k → screens i = ls) →
      waitForStableAux screens d T f k ls ss = true →
      StableWindow d T screens := by
  intro f
  induction f with
  | zero => intro k ls ss _ hrun; simp [waitForStableAux] at hrun
  | succ f ih =>
    intro k ls ss hinv hrun
    cases ss with
    | none =>
      simp only [waitForStableAux] at hrun
      by_cases hT : 50 * k < T
      · rw [if_pos hT] at hrun
        by_cases hch : screens k ≠ ls
        · rw [if_pos hch] at hrun
          refine ih (k + 1) (screens k) (some (50 * k)) ?_ hrun
          intro s hs
          cases hs
          exact ⟨k, rfl, Nat.lt_succ_self k, fun i h1 h2 => by
            have : i = k := by omega
            rw [this]⟩
        · rw [if_neg hch] at hrun
          exact ih (k + 1) ls none (fun s hs => by cases hs) hrun
      · rw [if_neg hT] at hrun
        exact absurd hrun (by simp)
    | some s =>
      obtain ⟨j, hs, hjk, hwin⟩ := hinv s rfl
      subst hs
      simp only [waitForStableAux] at hrun
      by_cases hT : 50 * k < T
      · rw [if_pos hT] at hrun
        by_cases hch : screens k ≠ ls
        · rw [if_pos hch] at hrun
          refine ih (k + 1) (screens k) (some (50 * k)) ?_ hrun
          intro s hs
          cases hs
          exact ⟨k, rfl, Nat.lt_succ_self k, fun i h1 h2 => by
            have : i = k := by omega
            rw [this]⟩
        · rw [if_neg hch] at hrun
          have hk : screens k = ls := not_not.mp hch
          by_cases hd : d ≤ 50 * k - 50 * j
          · refine ⟨j, k, hjk, by omega, hT, ?_⟩
            intro i h1 h2
            have hj : screens j = ls := hwin j (le_refl j) hjk
            rcases Nat.lt_or_ge i k with hik | hik
            · rw [hwin i h1 hik, hj]
            · have : i = k := by omega
              rw [this, hk, hj]
          · rw [if_neg hd] at hrun
            refine ih (k + 1) ls (some (50 * j)) ?_ hrun
            intro s hs
            cases hs
            refine ⟨j, rfl, Nat.lt_succ_of_lt hjk, fun i h1 h2 => ?_⟩
            rcases Nat.lt_or_ge i k with hik | hik
            · exact hwin i h1 hik
            · have : i = k := by omega
              rw [this, hk]
      · rw [if_neg hT] at hrun
        exact absurd hrun (by simp)

/-- Once the dwell clock is running (`stableSince = 50·j`) and the screen
stays equal to `screens j` up to poll `m` with `d ≤ 50·(m − j)` and
`50·m < deadline`, the loop returns success. -/
theorem waitForStableAux_run (screens : Nat → String) (d T j m : Nat)
    (hjm : j < m) (hd : d ≤ 50 * (m - j)) (hm : 50 * m < T)
    (hwin : ∀ i, j ≤ i → i ≤ m → screens i = screens j) :
    ∀ (f k : Nat), T ≤ 50 * k + 50 * f → j < k → k ≤ m →
      waitForStableAux screens d T f k (screens j) (some (50 * j)) = true := by
  intro f
  induction f with
  | zero =>
    intro k hfuel hjk hkm
    exfalso
    omega
  | succ f ih =>
    intro k hfuel hjk hkm
    have hT : 50 * k < T := by omega
    simp only [waitForStableAux, if_pos hT]
    have hk : screens k = screens j := hwin k (Nat.le_of_lt hjk) hkm
    rw [if_neg (by simpa using hk)]
    by_cases hdk : d ≤ 50 * k - 50 * j
    · simp [hdk]
    · rw [if_neg hdk]
      have hkm' : k < m := by
        rcases Nat.lt_or_ge k m with h | h
        · exact h
        · exfalso
          have : k = m := by omega
          omega
      exact ih (k + 1) (by omega) (Nat.lt_succ_of_lt hjk) hkm'

/-- Reaching the start of the window: until poll `j`, `lastScreen` is always
the previous poll's text (the empty string before the first poll), so at
poll `j` — where the text differs from that value — the dwell clock starts,
and the loop then succeeds by poll `m`. -/
theorem waitForStableAux_complete (screens : Nat → String) (d T j m : Nat)
    (hstart : screens j ≠ (if j = 0 then "" else screens (j - 1)))
    (hjm : j < m) (hd : d ≤ 50 * (m - j)) (hm : 50 * m < T)
    (hwin : ∀ i, j ≤ i → i ≤ m → screens i = screens j) :
    ∀ (f k : Nat) (ss : Option Nat), T ≤ 50 * k + 50 * f → k ≤ j →
      waitForStableAux screens d T f k (if k = 0 then "" else screens (k - 1)) ss = true := by
  intro f
  induction f with
  | zero =>
    intro k ss hfuel hkj
    exfalso
    omega
  | succ f ih =>
    intro k ss hfuel hkj
    have hT : 50 * k < T := by omega
    rcases Nat.lt_or_ge k j with hkj' | hkj'
    · -- before the window start: whatever happens, recurse with
      -- lastScreen = screens k
      have hnext : (if k + 1 = 0 then "" else screens (k + 1 - 1)) = screens k := by
        simp
      cases ss with
      | none =>
        simp only [waitForStableAux, if_pos hT]
        by_cases hch : screens k ≠ (if k = 0 then "" else screens (k - 1))
        · rw [if_pos hch]
          have := ih (k + 1) (some (50 * k)) (by omega) hkj'
          rwa [hnext] at this
        · rw [if_neg hch]
          have hk : screens k = (if k = 0 then "" else screens (k - 1)) := not_not.mp hch
          have := ih (k + 1) none (by omega) hkj'
          rw [hnext, hk] at this
          exact this
      | some s =>
        simp only [waitForStableAux, if_pos hT]
        by_cases hch : screens k ≠ (if k = 0 then "" else screens (k - 1))
        · rw [if_pos hch]
          have := ih (k + 1) (some (50 * k)) (by omega) hkj'
          rwa [hnext] at this
        · rw [if_neg hch]
          have hk : screens k = (if k = 0 then "" else screens (k - 1)) := not_not.mp hch
          by_cases hds : d ≤ 50 * k - s
          · simp [hds]
          · rw [if_neg hds]
            have := ih (k + 1) (some s) (by omega) hkj'
            rw [hnext, hk] at this
            exact this
    · -- k = j: the text changes here, the dwell clock starts
      have hk : k = j := by omega
      subst hk
      simp only [waitForStableAux, if_pos hT]
      rw [if_pos hstart]
      exact waitForStableAux_run screens d T k m hjm hd hm hwin f (k + 1)
        (by omega) (Nat.lt_succ_self k) hjm

/-! ## Lemmas about `WaitForText` -/

theorem containsText_empty_text (screen : String) : containsText screen "" = false := by
  simp [containsText]

/-- Go `strings.Contains(s, sub)` with a non-empty pattern is false on the
empty string. -/
theorem stringsContains_ne_empty {s sub : String} (hc : stringsContains s sub = true)
    (hsub : sub ≠ "") : s ≠ "" := by
  intro hs
  subst hs
  obtain ⟨c, cs, hdata⟩ : ∃ c cs, sub.data = c :: cs := by
    cases sub with
    | mk data =>
      cases data with
      | nil => exact absurd rfl hsub
      | cons c cs => exact ⟨c, cs, rfl⟩
  simp only [stringsContains, hasSubstring, hdata] at hc
  simp [List.isPrefixOf] at hc

theorem containsText_of_contains {screen text : String} (htext : text ≠ "")
    (hc : stringsContains screen text = true) : containsText screen text = true := by
  have hscreen : screen ≠ "" := stringsContains_ne_empty hc htext
  simp [containsText, htext, hscreen, hc]

theorem waitForTextAux_empty_text (screens : Nat → String) (T : Nat) :
    ∀ (f k : Nat), waitForTextAux screens "" T f k = false := by
  intro f
  induction f with
  | zero => intro k; rfl
  | succ f ih =>
    intro k
    simp only [waitForTextAux, containsText_empty_text]
    split
    · simpa using ih (k + 1)
    · rfl

theorem waitForTextAux_complete (screens : Nat → String) (text : String) (T : Nat)
    (htext : text ≠ "") :
    ∀ (f k : Nat), T ≤ 50 * k + 50 * f →
      (∃ i, k ≤ i ∧ 50 * i < T ∧ stringsContains (screens i) text = true) →
      waitForTextAux screens text T f k = true := by
  intro f
  induction f with
  | zero =>
    intro k hfuel ⟨i, hki, hiT, _⟩
    exfalso
    omega
  | succ f ih =>
    intro k hfuel ⟨i, hki, hiT, hc⟩
    have hT : 50 * k < T := by omega
    simp only [waitForTextAux, if_pos hT]
    by_cases hk : containsText (screens k) text = true
    · simp [hk]
    · rw [if_neg hk]
      have hik : k ≠ i := by
        intro h
        exact hk (h ▸ containsText_of_contains htext hc)
      exact ih (k + 1) (by omega) ⟨i, by omega, hiT, hc⟩

theorem waitForTextAux_sound (screens : Nat → String) (text : String) (T : Nat) :
    ∀ (f k : Nat), waitForTextAux screens text T f k = true →
      ∃ i, k ≤ i ∧ 50 * i < T ∧ containsText (screens i) text = true := by
  intro f
  induction f with
  | zero => intro k h; simp [waitForTextAux] at h
  | succ f ih =>
    intro k h
    simp only [waitForTextAux] at h
    by_cases hT : 50 * k < T
    · rw [if_pos hT] at h
      by_cases hk : containsText (screens k) text = true
      · exact ⟨k, le_refl k, hT, hk⟩
      · rw [if_neg hk] at h
        obtain ⟨i, h1, h2, h3⟩ := ih (k + 1) h
        exact ⟨i, by omega, h2, h3⟩
    · rw [if_neg hT] at h
      exact absurd h (by simp)

/-! ## Helper lemmas for the session operations -/

/-- Lack of an OSC terminator, stated on the bytes: no BEL, and no adjacent
`ESC \` pair. -/
theorem findOSCEnd_eq_none (rest : List Nat) (h7 : 7 ∉ rest)
    (hst : ∀ i : Nat, ¬(rest[i]? = some 27 ∧ rest[i + 1]? = some 92)) :
    findOSCEnd rest = none := by
  induction rest with
  | nil => rfl
  | cons b bs ih =>
    have hb7 : b ≠ 7 := fun hb => h7 (hb ▸ List.mem_cons_self b bs)
    have hbesc : ¬(b = 27 ∧ bs.head? = some 92) := by
      rintro ⟨hb, hh⟩
      refine hst 0 ⟨by simp [hb], ?_⟩
      simpa [List.head?_eq_getElem?] using hh
    have h7' : 7 ∉ bs := fun hm => h7 (List.mem_cons_of_mem b hm)
    have hst' : ∀ i : Nat, ¬(bs[i]? = some 27 ∧ bs[i + 1]? = some 92) := by
      intro i hi
      exact hst (i + 1) (by simpa using hi)
    simp [findOSCEnd, hb7, hbesc, ih h7' hst']

/-- An in-range `Resize` with a succeeding OS sizing call: the recorded size
is updated and a freshly sized model (without the PTY writer) is installed. -/
theorem Resize_success (t : Terminal) (cols rows : Int) (h1 : 0 ≤ rows)
    (h2 : rows ≤ 65535) (h3 : 0 ≤ cols) (h4 : cols ≤ 65535) :
    Resize true cols rows t =
      (none, { t with rows := rows, cols := cols, vt := vtNew cols rows false }, true) := by
  simp only [Resize, maxTerminalDimension]
  rw [if_neg (by omega), if_neg (by omega)]
  rfl

/-- An out-of-range `Resize` fails before the OS sizing call and leaves the
state unchanged. -/
theorem Resize_reject (t : Terminal) (setsizeOk : Bool) (cols rows : Int)
    (h : 65535 < rows ∨ 65535 < cols) :
    (∃ e, (Resize setsizeOk cols rows t).1 = some e) ∧
      (Resize setsizeOk cols rows t).2.1 = t ∧
      (Resize setsizeOk cols rows t).2.2 = false := by
  simp only [Resize, maxTerminalDimension]
  by_cases hr : rows < 0 ∨ (65535 : Int) < rows
  · rw [if_pos hr]
    exact ⟨⟨_, rfl⟩, rfl, rfl⟩
  · rw [if_neg hr, if_pos (by omega)]
    exact ⟨⟨_, rfl⟩, rfl, rfl⟩

/-- An in-range creation with a spawnable child succeeds (zero dimensions
are first replaced by the 24×80 defaults). -/
theorem New_success (rows cols : Int) (h1 : 0 ≤ rows) (h2 : rows ≤ 65535)
    (h3 : 0 ≤ cols) (h4 : cols ≤ 65535) :
    New true rows cols =
      (.ok { vt := vtNew (if cols = 0 then 80 else cols) (if rows = 0 then 24 else rows) true,
             rows := if rows = 0 then 24 else rows,
             cols := if cols = 0 then 80 else cols }, true) := by
  simp only [New, maxTerminalDimension]
  rw [if_neg (by split <;> omega), if_neg (by split <;> omega)]
  rfl

/-- An out-of-range creation fails before the OS sizing call. -/
theorem New_reject (spawnOk : Bool) (rows cols : Int)
    (h : 65535 < rows ∨ 65535 < cols) :
    (∃ e, (New spawnOk rows cols).1 = .error e) ∧ (New spawnOk rows cols).2 = false := by
  simp only [New, maxTerminalDimension]
  by_cases hr : (if rows = 0 then (24 : Int) else rows) < 0 ∨
      (65535 : Int) < (if rows = 0 then (24 : Int) else rows)
  · rw [if_pos hr]
    exact ⟨⟨_, rfl⟩, rfl⟩
  · rw [if_neg hr, if_pos ?_]
    · exact ⟨⟨_, rfl⟩, rfl⟩
    · rcases h with h | h
      · exfalso
        apply hr
        right
        rw [if_neg (by omega)]
        exact h
      · right
        rw [if_neg (by omega)]
        exact h

/-- A session state used as a concrete instance in witnesses: the state
created by `New` at the 24×80 defaults. -/
def tDefault : Terminal :=
  { vt := vtNew 80 24 true, rows := 24, cols := 80 }

/-- A session state with screen content and a displaced cursor, used to
show content and cursor state are discarded or ignored. -/
def tJunk : Terminal :=
  { vt := { text := "OLD CONTENT", cursorRow := 3, cursorCol := 7,
            cursorVisible := false, hasPtyWriter := true },
    rows := 24, cols := 80 }

/-- The session state after a successful `resize(132, 43)`. -/
def tResized : Terminal :=
  { vt := vtNew 132 43 false, rows := 43, cols := 132 }

/-- Two model states sharing the same rendered text but differing in every
cursor attribute: the cursor at the home position, visible. -/
def tCursorHome : Terminal :=
  { vt := { text := "hello", cursorRow := 0, cursorCol := 0,
            cursorVisible := true, hasPtyWriter := true },
    rows := 24, cols := 80 }

/-- The counterpart of `tCursorHome`: same text, cursor at row 5, column 3,
hidden. -/
def tCursorMoved : Terminal :=
  { vt := { text := "hello", cursorRow := 5, cursorCol := 3,
            cursorVisible := false, hasPtyWriter := true },
    rows := 24, cols := 80 }

/-! ## The claims -/

/-- C1 (counterexample): the claim as stated is false.  A snapshot stream
that is the empty string at every poll is unchanged from the first poll
onward, has been observed unchanged for 50 ms well before a 300 ms timeout
(`StableWindow 50 300`), yet `WaitForStable` returns the timeout error:
the initial `lastScreen` sentinel is also the empty string, so the change
detector never fires and `stableSince` never leaves its zero value. -/
theorem C1_claim_counterexample :
    StableWindow 50 300 (fun _ => "") ∧ WaitForStable 300 50 (fun _ => "") = false :=
  ⟨⟨0, 1, by omega, by omega, by omega, fun _ _ _ => rfl⟩, by decide⟩

/-- C1 (amended): `WaitForStable` returns success as soon as the snapshot
text has been observed unchanged continuously for at least `stableDuration`
before `timeout`, **provided** the stable stretch begins at a poll where the
text actually changed from the previous poll — or, for a stretch beginning
at the first poll, that its text is non-empty; a snapshot stream equal to
the empty string from the first poll onward never starts the dwell clock and
always yields the timeout error.  Success is never reported without a
continuous dwell of at least `stableDuration` between polls before the
deadline (so a timeout error is returned whenever no such stretch exists). -/
theorem C1_waitForStable_amended :
    (∀ (d T : Nat) (screens : Nat → String) (j m : Nat),
        screens j ≠ (if j = 0 then "" else screens (j - 1)) →
        j < m → d ≤ 50 * (m - j) → 50 * m < T →
        (∀ i, j ≤ i → i ≤ m → screens i = screens j) →
        WaitForStable T d screens = true) ∧
    (∀ (d T : Nat), WaitForStable T d (fun _ => "") = false) ∧
    (∀ (d T : Nat) (screens : Nat → String),
        WaitForStable T d screens = true → StableWindow d T screens) := by
  refine ⟨?_, ?_, ?_⟩
  · intro d T screens j m hstart hjm hd hm hwin
    have h := waitForStableAux_complete screens d T j m hstart hjm hd hm hwin T 0 none
      (by omega) (Nat.zero_le j)
    simpa [WaitForStable] using h
  · intro d T
    exact waitForStableAux_const_empty d T T 0
  · intro d T screens h
    exact waitForStableAux_sound screens d T T 0 "" none (fun s hs => by cases hs) h

/-- C1 (witness for the amended theorem): a never-changing non-empty
snapshot stream succeeds within a 300 ms timeout at 50 ms stable duration;
the constantly-empty stream times out; and a success exhibits a stable
window. -/
theorem C1_waitForStable_amended_witness :
    WaitForStable 300 50 (fun _ => "ok") = true ∧
    WaitForStable 300 50 (fun _ => "") = false ∧
    StableWindow 50 300 (fun _ => "ok") :=
  ⟨C1_waitForStable_amended.1 50 300 (fun _ => "ok") 0 1 (by decide) (by omega)
      (by omega) (by omega) (fun _ _ _ => rfl),
    C1_waitForStable_amended.2.1 50 300,
    C1_waitForStable_amended.2.2 50 300 (fun _ => "ok") (by decide)⟩

/-- C2: the snapshot operations return only the model's rendered text — the
cursor row, column and visibility are **not** part of the returned snapshot
(`ScreenshotWithCursor` returns the plain screen).  Two session states whose
models differ in cursor row, column and visibility but share the same text
produce identical snapshots, so the snapshot carries no cursor information;
this contradicts the claim (and the function's own doc comment). -/
theorem C2_snapshot_carries_no_cursor :
    (∀ t : Terminal, Screenshot t = t.vt.text ∧ ScreenshotWithCursor t = t.vt.text) ∧
    ScreenshotWithCursor tCursorHome = ScreenshotWithCursor tCursorMoved ∧
    tCursorHome.vt.cursorRow ≠ tCursorMoved.vt.cursorRow ∧
    tCursorHome.vt.cursorCol ≠ tCursorMoved.vt.cursorCol ∧
    tCursorHome.vt.cursorVisible ≠ tCursorMoved.vt.cursorVisible :=
  ⟨fun _ => ⟨rfl, rfl⟩, rfl, by decide, by decide, by decide⟩

/-- C3: device-status-report queries (`ESC[5n`, `ESC[6n`) are indeed never
intercepted by the Query Interceptor, and `New` installs a model constructed
with the PTY writer — but `Resize` always installs a model constructed
**without** the PTY writer (`vt10x.New(vt10x.WithSize(cols, rows))` with no
`WithWriter`), so after any successful resize the installed model is not
equipped to answer device-status-report queries, violating the claimed
invariant. -/
theorem C3_resize_drops_pty_writer :
    (∀ t : Terminal,
        handleTerminalQueries t [27, 91, 53, 110] = ([27, 91, 53, 110], []) ∧
        handleTerminalQueries t [27, 91, 54, 110] = ([27, 91, 54, 110], [])) ∧
    (∃ t0 : Terminal, (New true 24 80).1 = .ok t0 ∧ t0.vt.hasPtyWriter = true ∧
        ((Resize true 100 30 t0).2.1).vt.hasPtyWriter = false) ∧
    (∀ (t : Terminal) (setsizeOk : Bool) (cols rows : Int),
        ((Resize setsizeOk cols rows t).2.1).vt.hasPtyWriter = false ∨
        (Resize setsizeOk cols rows t).2.1 = t) := by
  refine ⟨?_, ?_, ?_⟩
  · intro t
    constructor <;>
      simp [handleTerminalQueries, handleTQAux, tryHandleQuery, tryHandleCSIQuery,
        tryHandleOSCQuery, tryHandleXTWINOPS]
  · exact ⟨{ vt := vtNew 80 24 true, rows := 24, cols := 80 }, rfl, rfl, rfl⟩
  · intro t setsizeOk cols rows
    simp only [Resize]
    split
    · right; rfl
    · split
      · right; rfl
      · split
        · left; rfl
        · right; rfl

/-- C4: for every (rows, cols) with both components in [0, 65535], creation
succeeds when the child can be spawned, and resize succeeds when the OS
sizing call does; for any rows or cols above 65535, creation and resize fail
with a configuration error and the OS-level sizing call is never reached. -/
theorem C4_dimension_validation :
    (∀ rows cols : Int, 0 ≤ rows → rows ≤ 65535 → 0 ≤ cols → cols ≤ 65535 →
        ∃ t, New true rows cols = (.ok t, true)) ∧
    (∀ (spawnOk : Bool) (rows cols : Int), 65535 < rows ∨ 65535 < cols →
        (∃ e, (New spawnOk rows cols).1 = .error e) ∧ (New spawnOk rows cols).2 = false) ∧
    (∀ (t : Terminal) (cols rows : Int), 0 ≤ rows → rows ≤ 65535 → 0 ≤ cols →
        cols ≤ 65535 → ∃ t', Resize true cols rows t = (none, t', true)) ∧
    (∀ (t : Terminal) (setsizeOk : Bool) (cols rows : Int),
        65535 < rows ∨ 65535 < cols →
        (∃ e, (Resize setsizeOk cols rows t).1 = some e) ∧
          (Resize setsizeOk cols rows t).2.2 = false) := by
  refine ⟨?_, ?_, ?_, ?_⟩
  · intro rows cols h1 h2 h3 h4
    exact ⟨_, New_success rows cols h1 h2 h3 h4⟩
  · intro spawnOk rows cols h
    exact New_reject spawnOk rows cols h
  · intro t cols rows h1 h2 h3 h4
    exact ⟨_, Resize_success t cols rows h1 h2 h3 h4⟩
  · intro t setsizeOk cols rows h
    obtain ⟨he, _, hos⟩ := Resize_reject t setsizeOk cols rows h
    exact ⟨he, hos⟩

/-- C4 (witness): creation succeeds at 24×80 and resize succeeds at 132×43;
creation and resize at rows = 70000 fail before the OS sizing call. -/
theorem C4_dimension_validation_witness :
    (∃ t, New true 24 80 = (.ok t, true)) ∧
    ((∃ e, (New true 70000 80).1 = .error e) ∧ (New true 70000 80).2 = false) ∧
    (∃ t', Resize true 132 43 tDefault = (none, t', true)) ∧
    ((∃ e, (Resize true 132 70000 tDefault).1 = some e) ∧
      (Resize true 132 70000 tDefault).2.2 = false) :=
  ⟨C4_dimension_validation.1 24 80 (by omega) (by omega) (by omega) (by omega),
    C4_dimension_validation.2.1 true 70000 80 (by omega),
    C4_dimension_validation.2.2.1 tDefault 132 43 (by omega) (by omega) (by omega) (by omega),
    C4_dimension_validation.2.2.2 tDefault true 132 70000 (by omega)⟩

/-- C5: a buffer that is exactly one well-formed Primary Device Attributes
query (`ESC [ c` or `ESC [ 0 c`) filters to the empty buffer with exactly
one write, the bytes of `ESC [ ? 6 2 ; 4 c`. -/
theorem C5_da1_query_roundtrip :
    ∀ t : Terminal,
      handleTerminalQueries t [27, 91, 99] = ([], [[27, 91, 63, 54, 50, 59, 52, 99]]) ∧
      handleTerminalQueries t [27, 91, 48, 99] = ([], [[27, 91, 63, 54, 50, 59, 52, 99]]) := by
  intro t
  constructor <;>
    simp [handleTerminalQueries, handleTQAux, tryHandleQuery, tryHandleCSIQuery,
      tryHandleOSCQuery, tryHandleXTWINOPS, respondToDA1]

/-- C6: the window-size-in-pixels query `ESC [ 1 4 t`, preceded by any
escape-free bytes and followed by anything, is elided from the bytes that
reach the Virtual Screen Model, and exactly the response
`ESC [ 4 ; rows*16 ; cols*8 t` is written back ahead of any later
responses; at 24 rows and 80 columns the response is exactly the bytes of
`ESC[4;384;640t`. -/
theorem C6_window_size_pixels :
    (∀ (t : Terminal) (pre post : List Nat), 27 ∉ pre →
        handleTerminalQueries t (pre ++ [27, 91, 49, 52, 116] ++ post) =
          (pre ++ (handleTerminalQueries t post).1,
            ([27, 91, 52, 59] ++ decBytes (t.rows * 16) ++ [59] ++
                decBytes (t.cols * 8) ++ [116]) :: (handleTerminalQueries t post).2)) ∧
    (∀ t : Terminal, t.rows = 24 → t.cols = 80 →
        handleTerminalQueries t [27, 91, 49, 52, 116] =
          ([], [[27, 91, 52, 59, 51, 56, 52, 59, 54, 52, 48, 116]])) := by
  have main : ∀ (t : Terminal) (pre post : List Nat), 27 ∉ pre →
      handleTerminalQueries t (pre ++ [27, 91, 49, 52, 116] ++ post) =
        (pre ++ (handleTerminalQueries t post).1,
          respondToWindowSizePixels t :: (handleTerminalQueries t post).2) := by
    intro t pre post hpre
    rw [List.append_assoc, handleTQ_clean_append t _ hpre]
    have hq : tryHandleQuery t (27 :: ([91, 49, 52, 116] ++ post)) =
        some (5, respondToWindowSizePixels t) := by
      simp [tryHandleQuery, tryHandleCSIQuery, tryHandleXTWINOPS]
    have hm := handleTQ_cons_match t rfl (by simp) hq
    simp only [List.cons_append, List.nil_append] at hm ⊢
    rw [hm]
    simp [List.drop]
  constructor
  · intro t pre post hpre
    exact main t pre post hpre
  · intro t h1 h2
    have h := main t [] [] (by simp)
    simp only [List.nil_append, List.append_nil, handleTQ_nil] at h
    rw [h]
    simp only [respondToWindowSizePixels, h1, h2]
    decide

/-- C6 (witness): in a 24×80 session, a buffer with the query between the
plain bytes `a` and `b` filters to `ab` with exactly the pixel-size
response written. -/
theorem C6_window_size_pixels_witness :
    handleTerminalQueries tDefault ([97] ++ [27, 91, 49, 52, 116] ++ [98]) =
      ([97] ++ (handleTerminalQueries tDefault [98]).1,
        ([27, 91, 52, 59] ++ decBytes (tDefault.rows * 16) ++ [59] ++
            decBytes (tDefault.cols * 8) ++ [116])
          :: (handleTerminalQueries tDefault [98]).2) ∧
    handleTerminalQueries tDefault [27, 91, 49, 52, 116] =
      ([], [[27, 91, 52, 59, 51, 56, 52, 59, 54, 52, 48, 116]]) :=
  ⟨C6_window_size_pixels.1 tDefault [97] [98] (by decide),
    C6_window_size_pixels.2 tDefault rfl rfl⟩

/-- C7: an OSC color-query prefix (`ESC ] 1 0 ;` or `ESC ] 1 1 ;`) whose
remainder holds no terminator — no BEL byte and no adjacent `ESC \` pair —
is not matched: its bytes pass through to the Virtual Screen Model
unchanged, the scan of the remainder proceeds as if the prefix were absent,
and no color response is written in the call. -/
theorem C7_osc_unterminated_passthrough :
    ∀ (t : Terminal) (pre rest : List Nat), 27 ∉ pre → 7 ∉ rest →
      (∀ i : Nat, ¬(rest[i]? = some 27 ∧ rest[i + 1]? = some 92)) →
      (handleTerminalQueries t (pre ++ [27, 93, 49, 48, 59] ++ rest) =
          (pre ++ [27, 93, 49, 48, 59] ++ (handleTerminalQueries t rest).1,
            (handleTerminalQueries t rest).2) ∧
        handleTerminalQueries t (pre ++ [27, 93, 49, 49, 59] ++ rest) =
          (pre ++ [27, 93, 49, 49, 59] ++ (handleTerminalQueries t rest).1,
            (handleTerminalQueries t rest).2)) ∧
      respondToForegroundColorQuery ∉ (handleTerminalQueries t rest).2 ∧
      respondToBackgroundColorQuery ∉ (handleTerminalQueries t rest).2 := by
  intro t pre rest hpre h7 hesc
  have hno : findOSCEnd rest = none := findOSCEnd_eq_none rest h7 hesc
  refine ⟨⟨?_, ?_⟩, handleTQ_no_color_writes t rest hno⟩
  · rw [List.append_assoc, handleTQ_clean_append t _ hpre]
    have hq : tryHandleQuery t (27 :: ([93, 49, 48, 59] ++ rest)) = none := by
      simp [tryHandleQuery, tryHandleCSIQuery, tryHandleOSCQuery, tryHandleXTWINOPS, hno]
    have hstep := handleTQ_cons_esc_none t (by simp) hq
    have hclean := handleTQ_clean_append t rest
      (show (27 : Nat) ∉ [93, 49, 48, 59] by decide)
    simp only [List.cons_append, List.nil_append] at hstep hclean ⊢
    rw [hstep, hclean]
    simp
  · rw [List.append_assoc, handleTQ_clean_append t _ hpre]
    have hq : tryHandleQuery t (27 :: ([93, 49, 49, 59] ++ rest)) = none := by
      simp [tryHandleQuery, tryHandleCSIQuery, tryHandleOSCQuery, tryHandleXTWINOPS, hno]
    have hstep := handleTQ_cons_esc_none t (by simp) hq
    have hclean := handleTQ_clean_append t rest
      (show (27 : Nat) ∉ [93, 49, 49, 59] by decide)
    simp only [List.cons_append, List.nil_append] at hstep hclean ⊢
    rw [hstep, hclean]
    simp

/-- C7 (witness): the foreground color-query prefix followed by `hi` and no
terminator passes through unchanged with no write. -/
theorem C7_osc_unterminated_passthrough_witness :
    handleTerminalQueries tDefault [27, 93, 49, 48, 59, 104, 105] =
      ([27, 93, 49, 48, 59, 104, 105], []) := by
  have h := C7_osc_unterminated_passthrough tDefault [] [104, 105] (by decide) (by decide)
    (by
      intro i
      match i with
      | 0 => simp
      | 1 => simp
      | (n + 2) => simp)
  have h1 := h.1.1
  simp only [List.nil_append, List.cons_append] at h1
  rw [h1]
  simp [handleTerminalQueries, handleTQAux]

/-- C8: a successful resize installs a freshly constructed model of the new
size and updates the recorded dimensions, so a subsequent snapshot is the
blank grid of the new size, regardless of the state before the resize; in
particular `resize(132, 43)` yields a 43-row, 132-column blank grid. -/
theorem C8_resize_installs_fresh_model :
    (∀ (t t' : Terminal) (cols rows : Int) (os : Bool),
        Resize true cols rows t = (none, t', os) →
        t'.vt = vtNew cols rows false ∧ t'.rows = rows ∧ t'.cols = cols ∧
          Screenshot t' = blankGrid cols rows) ∧
    (∀ t : Terminal,
        (Resize true 132 43 t).2.1 = { vt := vtNew 132 43 false, rows := 43, cols := 132 } ∧
        Screenshot ((Resize true 132 43 t).2.1) = blankGrid 132 43) := by
  constructor
  · intro t t' cols rows os h
    simp only [Resize] at h
    split at h
    · simp at h
    · split at h
      · simp at h
      · split at h
        · simp only [Prod.mk.injEq] at h
          obtain ⟨-, h2, -⟩ := h
          subst h2
          exact ⟨rfl, rfl, rfl, rfl⟩
        · simp at h
  · intro t
    rw [Resize_success t 132 43 (by omega) (by omega) (by omega) (by omega)]
    exact ⟨rfl, rfl⟩

/-- C8 (witness): resizing a session holding old content and a displaced
cursor to 132×43 installs the fresh writer-less model, records the new
size, and snapshots as the 43-row, 132-column blank grid. -/
theorem C8_resize_installs_fresh_model_witness :
    tResized.vt = vtNew 132 43 false ∧ tResized.rows = 43 ∧ tResized.cols = 132 ∧
    Screenshot tResized = blankGrid 132 43 :=
  C8_resize_installs_fresh_model.1 tJunk tResized 132 43 true (by rfl)

/-- C9: `WaitForText` with the empty target always returns the timeout
error, whatever the snapshots are; with a non-empty target it succeeds as
soon as a polled snapshot before the deadline contains the target as a
substring, and any success comes from such a snapshot. -/
theorem C9_waitForText_empty_and_substring :
    (∀ (T : Nat) (screens : Nat → String), WaitForText "" T screens = false) ∧
    (∀ (text : String) (T : Nat) (screens : Nat → String), text ≠ "" →
        (∃ k, 50 * k < T ∧ stringsContains (screens k) text = true) →
        WaitForText text T screens = true) ∧
    (∀ (text : String) (T : Nat) (screens : Nat → String),
        WaitForText text T screens = true →
        ∃ k, 50 * k < T ∧ containsText (screens k) text = true) := by
  refine ⟨?_, ?_, ?_⟩
  · intro T screens
    exact waitForTextAux_empty_text screens T T 0
  · intro text T screens htext h
    obtain ⟨k, h1, h2⟩ := h
    exact waitForTextAux_complete screens text T htext T 0 (by omega)
      ⟨k, Nat.zero_le k, h1, h2⟩
  · intro text T screens h
    obtain ⟨i, _, h2, h3⟩ := waitForTextAux_sound screens text T T 0 h
    exact ⟨i, h2, h3⟩

/-- C9 (witness): on a screen always showing `hello`, the empty target times
out at 100 ms, the target `ell` succeeds, and the success is witnessed by a
matching poll. -/
theorem C9_waitForText_empty_and_substring_witness :
    WaitForText "" 100 (fun _ => "hello") = false ∧
    WaitForText "ell" 100 (fun _ => "hello") = true ∧
    (∃ k, 50 * k < 100 ∧ containsText ((fun _ : Nat => "hello") k) "ell" = true) :=
  ⟨C9_waitForText_empty_and_substring.1 100 (fun _ => "hello"),
    C9_waitForText_empty_and_substring.2.1 "ell" 100 (fun _ => "hello") (by decide)
      ⟨0, by omega, by decide⟩,
    C9_waitForText_empty_and_substring.2.2 "ell" 100 (fun _ => "hello") (by decide)⟩

/-- C10: whenever `Resize` returns an error — from dimension validation or
from the OS-level sizing call — the session state is unchanged: the recorded
size keeps its previous values and the model is not replaced. -/
theorem C10_resize_error_preserves_state :
    ∀ (setsizeOk : Bool) (cols rows : Int) (t : Terminal) (e : String),
      (Resize setsizeOk cols rows t).1 = some e →
      (Resize setsizeOk cols rows t).2.1 = t := by
  intro ok cols rows t e h
  by_cases h1 : rows < 0 ∨ maxTerminalDimension < rows
  · simp [Resize, h1]
  · by_cases h2 : cols < 0 ∨ maxTerminalDimension < cols
    · simp [Resize, h1, h2]
    · cases ok with
      | true => simp [Resize, h1, h2] at h
      | false => simp [Resize, h1, h2]

/-- C10 (witness): a failing OS sizing call at 132×43 and a rejected
oversized resize both leave the session state untouched. -/
theorem C10_resize_error_preserves_state_witness :
    (Resize false 132 43 tJunk).2.1 = tJunk ∧
    (Resize true 132 999999 tJunk).2.1 = tJunk :=
  ⟨C10_resize_error_preserves_state false 132 43 tJunk "failed to set PTY size" (by rfl),
    C10_resize_error_preserves_state true 132 999999 tJunk
      "rows must be between 0 and 65535" (by rfl)⟩

end TuiGoggles
